import Mathlib

/-!
Shallow embedding of the forecasting-dashboard client (src/App.jsx) and its
k6 load-test harness (src/todo.md, embedded load_test.js), for checking the
natural-language specification against the code.

Conventions of the embedding:
* JSON numbers are `Rat`, strings are `String`, dates are ISO strings.
* A JS value that may be `undefined`/missing is an `Option`; the three-way
  distinction value / `null` / `undefined` is modelled explicitly where the
  source distinguishes them (the `!== null` tests in the k6 script).
* React `useState` slots are fields of an explicit state record; a `setX`
  call is a functional update of that record.
* An awaited axios call is modelled by its outcome (`ok data` / `failed`),
  and the interleaving of several in-flight calls by an event trace.
-/

namespace ForecastDashboard

/-- One element of `forecastData.forecasts` as consumed by the chart
builders in src/App.jsx (fields read via `f.date`, `f.demand_forecast`,
`f.demand_lower`, `f.demand_upper`, `f.price_forecast`, `f.price_lower`,
`f.price_upper`); a missing field reads as `undefined`, hence `Option`. -/
structure ForecastPoint where
  date : Option String
  demand_forecast : Option Rat
  demand_lower : Option Rat
  demand_upper : Option Rat
  price_forecast : Option Rat
  price_lower : Option Rat
  price_upper : Option Rat
deriving DecidableEq, Repr

/-- The body of a successful `GET /forecast/...` as the dashboard reads it:
`forecasts` (guarded by `!forecastData.forecasts`, so possibly absent),
`model_type`, `forecast_days`, `generated_at`. -/
structure ForecastResponse where
  forecasts : Option (List ForecastPoint)
  model_type : String
  forecast_days : Nat
  generated_at : String
deriving DecidableEq, Repr

/-- The body of a successful `GET /cost-analysis/...` as read by the KPI
cards: `avg_cost`, `waste_rate`, `total_waste_cost`. -/
structure CostAnalysis where
  avg_cost : Rat
  waste_rate : Rat
  total_waste_cost : Rat
deriving DecidableEq, Repr

/-- One of the two per-measure metric records (`demand_metrics`,
`price_metrics`): only `mae` is read by the UI. -/
structure MetricPair where
  mae : Rat
deriving DecidableEq, Repr

/-- The body of a successful `GET /metrics/...` as read by the cards. -/
structure MetricsResponse where
  demand_metrics : MetricPair
  price_metrics : MetricPair
deriving DecidableEq, Repr

/-- The `useState` slots of the `App` component that a refresh cycle can
touch: `forecastData`, `costAnalysis`, `metrics`, `loading`, `error`.
(`items`, `selectedItem`, `forecastDays`, `modelType` are inputs of a cycle,
not outputs, and are threaded separately.) -/
structure DashboardState where
  forecastData : Option ForecastResponse
  costAnalysis : Option CostAnalysis
  metrics : Option MetricsResponse
  loading : Bool
  error : Option String
deriving DecidableEq, Repr

/-- The initial `useState` values of the `App` component. -/
def initialDashboardState : DashboardState :=
  { forecastData := none, costAnalysis := none, metrics := none,
    loading := false, error := none }

/-- Outcome of one awaited axios call: resolved with a parsed body, or
rejected (network failure / non-2xx / parse failure). -/
inductive FetchOutcome (α : Type) where
  | ok (data : α)
  | failed
deriving DecidableEq, Repr

/-- The message passed to `setError` in the catch branch of
`loadForecastData`. -/
def forecastErrorMessage : String := "Failed to load forecast data"

/-- Net effect of one complete `loadForecastData()` run (App.jsx lines
51-65) on the component state: `setLoading(true); setError(null);` then on
success `setForecastData(response.data)`, on failure
`setError('Failed to load forecast data')`, and `setLoading(false)` in the
`finally` block. -/
def loadForecastData (s : DashboardState) (res : FetchOutcome ForecastResponse) :
    DashboardState :=
  match res with
  | FetchOutcome.ok d =>
      { s with error := none, forecastData := some d, loading := false }
  | FetchOutcome.failed =>
      { s with error := some forecastErrorMessage, loading := false }

/-- Net effect of one complete `loadCostAnalysis()` run (App.jsx lines
67-74): on success `setCostAnalysis(response.data)`; the catch branch only
calls `console.error` and changes no state. -/
def loadCostAnalysis (s : DashboardState) (res : FetchOutcome CostAnalysis) :
    DashboardState :=
  match res with
  | FetchOutcome.ok d => { s with costAnalysis := some d }
  | FetchOutcome.failed => s

/-- Net effect of one complete `loadMetrics()` run (App.jsx lines 76-83):
on success `setMetrics(response.data)`; the catch branch changes no state. -/
def loadMetrics (s : DashboardState) (res : FetchOutcome MetricsResponse) :
    DashboardState :=
  match res with
  | FetchOutcome.ok d => { s with metrics := some d }
  | FetchOutcome.failed => s

/-- One refresh cycle as triggered by the selection-change effect (App.jsx
lines 43-49): all three loaders run, each with its own outcome. The three
functions write disjoint state slots except that only the forecast loader
touches `error`/`loading`, so the composition order is immaterial. -/
def refresh (s : DashboardState) (f : FetchOutcome ForecastResponse)
    (c : FetchOutcome CostAnalysis) (m : FetchOutcome MetricsResponse) :
    DashboardState :=
  loadMetrics (loadCostAnalysis (loadForecastData s f) c) m

/-- One Plotly trace as built in `createForecastChart` / `createPriceChart`:
the fields that carry the series data and legend behaviour (`x`, `y`,
`name`, `showlegend`; styling literals are omitted as pure presentation). -/
structure Trace where
  x : List (Option String)
  y : List (Option Rat)
  name : String
  showlegend : Bool
deriving DecidableEq, Repr

/-- The object returned by a chart builder: the `data` trace list (in
source order: center line, upper bound, lower bound) and the layout title. -/
structure Chart where
  data : List Trace
  title : String
deriving DecidableEq, Repr

/-- Trace name literal from App.jsx line 100. -/
def demandForecastName : String := "Demand Forecast"

/-- Trace name literal from App.jsx lines 108 and 157. -/
def upperBoundName : String := "Upper Bound"

/-- Trace name literal from App.jsx lines 117 and 166. -/
def lowerBoundName : String := "Lower Bound"

/-- Trace name literal from App.jsx line 149. -/
def priceForecastName : String := "Price Forecast"

/-- Title prefix from App.jsx line 125. -/
def demandChartTitlePrefix : String := "Demand Forecast - "

/-- Title prefix from App.jsx line 174. -/
def priceChartTitlePrefix : String := "Price Forecast - "

/-- `createForecastChart` (App.jsx lines 85-132): returns `null` when
`forecastData` is absent or `forecastData.forecasts` is absent, otherwise
maps `date`, `demand_forecast`, `demand_upper`, `demand_lower` over the
points and assembles the three demand traces over the shared date axis. -/
def createForecastChart (forecastData : Option ForecastResponse)
    (selectedItem : String) : Option Chart :=
  match forecastData with
  | none => none
  | some fd =>
    match fd.forecasts with
    | none => none
    | some fs =>
        some
          { data :=
              [ { x := fs.map (fun f => f.date),
                  y := fs.map (fun f => f.demand_forecast),
                  name := demandForecastName, showlegend := true },
                { x := fs.map (fun f => f.date),
                  y := fs.map (fun f => f.demand_upper),
                  name := upperBoundName, showlegend := false },
                { x := fs.map (fun f => f.date),
                  y := fs.map (fun f => f.demand_lower),
                  name := lowerBoundName, showlegend := false } ],
            title := demandChartTitlePrefix ++ selectedItem }

/-- `createPriceChart` (App.jsx lines 134-181): same shape as
`createForecastChart` over the price fields. -/
def createPriceChart (forecastData : Option ForecastResponse)
    (selectedItem : String) : Option Chart :=
  match forecastData with
  | none => none
  | some fd =>
    match fd.forecasts with
    | none => none
    | some fs =>
        some
          { data :=
              [ { x := fs.map (fun f => f.date),
                  y := fs.map (fun f => f.price_forecast),
                  name := priceForecastName, showlegend := true },
                { x := fs.map (fun f => f.date),
                  y := fs.map (fun f => f.price_upper),
                  name := upperBoundName, showlegend := false },
                { x := fs.map (fun f => f.date),
                  y := fs.map (fun f => f.price_lower),
                  name := lowerBoundName, showlegend := false } ],
            title := priceChartTitlePrefix ++ selectedItem }

/-- The three accuracy tiers rendered by `getAccuracyBadge`; the JSX badge
labels them Excellent, Good and Needs Improvement respectively. -/
inductive Badge where
  | excellent
  | good
  | needsImprovement
deriving DecidableEq, Repr

/-- `getAccuracyBadge` (App.jsx lines 183-187): `mae <= 5` Excellent,
else `mae <= 10` Good, else Needs Improvement. -/
def getAccuracyBadge (mae : Rat) : Badge :=
  if mae ≤ 5 then Badge.excellent
  else if mae ≤ 10 then Badge.good
  else Badge.needsImprovement

/-- The chart render guard at App.jsx line 331: the demand `Plot` is
rendered only inside `{forecastData && ...}`, and then from the committed
`forecastData` via `createForecastChart`. -/
def renderedForecastChart (s : DashboardState) (selectedItem : String) :
    Option Chart :=
  match s.forecastData with
  | none => none
  | some _ => createForecastChart s.forecastData selectedItem

/-- The price counterpart of the render guard at App.jsx line 331. -/
def renderedPriceChart (s : DashboardState) (selectedItem : String) :
    Option Chart :=
  match s.forecastData with
  | none => none
  | some _ => createPriceChart s.forecastData selectedItem

/-- The error banner guard at App.jsx line 264: `{error && ...}` shows the
message exactly when the error slot is non-null. -/
def renderedError (s : DashboardState) : Option String := s.error

/-- The selection key of a refresh cycle: the `selectedItem`,
`forecastDays` and `modelType` state values captured when the effect at
App.jsx lines 43-49 fires. -/
structure SelectionKey where
  itemId : String
  horizonDays : Nat
  model : String
deriving DecidableEq, Repr

/-- Events of the single-threaded event loop during overlapping refresh
cycles. `reqForecast k` is the synchronous prefix of `loadForecastData`
issued for key `k` (`setLoading(true); setError(null)` before the await);
the `res*` events are resolutions of previously issued requests, tagged
with the key they were issued for. The tag records provenance only: the
source handlers do not inspect it. -/
inductive DashEvent where
  | reqForecast (key : SelectionKey)
  | resForecastOk (key : SelectionKey) (data : ForecastResponse)
  | resForecastErr (key : SelectionKey)
  | resCostOk (key : SelectionKey) (data : CostAnalysis)
  | resCostErr (key : SelectionKey)
  | resMetricsOk (key : SelectionKey) (data : MetricsResponse)
  | resMetricsErr (key : SelectionKey)
deriving DecidableEq, Repr

/-- State transition of one event. Mirrors the source handlers: a resolved
forecast response runs `setForecastData(response.data); setLoading(false)`
unconditionally — there is no comparison against the currently selected
key anywhere in App.jsx — and likewise for the cost-analysis and metrics
handlers; rejections of the optional calls change nothing. -/
def stepDash (s : DashboardState) : DashEvent → DashboardState
  | DashEvent.reqForecast _ => { s with loading := true, error := none }
  | DashEvent.resForecastOk _ d => { s with forecastData := some d, loading := false }
  | DashEvent.resForecastErr _ =>
      { s with error := some forecastErrorMessage, loading := false }
  | DashEvent.resCostOk _ d => { s with costAnalysis := some d }
  | DashEvent.resCostErr _ => s
  | DashEvent.resMetricsOk _ d => { s with metrics := some d }
  | DashEvent.resMetricsErr _ => s

/-- Run a whole event trace from a state. -/
def runDash (s : DashboardState) : List DashEvent → DashboardState
  | [] => s
  | e :: rest => runDash (stepDash s e) rest

/-- Trace observer: the key of a `reqForecast` event, if any. -/
def eventRequestKey : DashEvent → Option SelectionKey
  | DashEvent.reqForecast k => some k
  | _ => none

/-- Trace observer: the key of the last refresh request in the trace. -/
def lastRequestedKey : List DashEvent → Option SelectionKey
  | [] => none
  | e :: rest =>
    match lastRequestedKey rest with
    | some k => some k
    | none => eventRequestKey e

/-- Trace observer: the body carried by a successful forecast resolution. -/
def eventForecastData : DashEvent → Option ForecastResponse
  | DashEvent.resForecastOk _ d => some d
  | _ => none

/-- Trace observer: the body of the last successful forecast resolution
to arrive, if any. -/
def lastForecastArrival : List DashEvent → Option ForecastResponse
  | [] => none
  | e :: rest =>
    match lastForecastArrival rest with
    | some d => some d
    | none => eventForecastData e

/-- Trace observer: the body carried by a successful cost resolution. -/
def eventCostData : DashEvent → Option CostAnalysis
  | DashEvent.resCostOk _ d => some d
  | _ => none

/-- Trace observer: the body of the last successful cost-analysis
resolution to arrive, if any. -/
def lastCostArrival : List DashEvent → Option CostAnalysis
  | [] => none
  | e :: rest =>
    match lastCostArrival rest with
    | some d => some d
    | none => eventCostData e

/-- Trace observer: the body carried by a successful metrics resolution. -/
def eventMetricsData : DashEvent → Option MetricsResponse
  | DashEvent.resMetricsOk _ d => some d
  | _ => none

/-- Trace observer: the body of the last successful metrics resolution to
arrive, if any. -/
def lastMetricsArrival : List DashEvent → Option MetricsResponse
  | [] => none
  | e :: rest =>
    match lastMetricsArrival rest with
    | some d => some d
    | none => eventMetricsData e

end ForecastDashboard

namespace LoadTest

/-- The tri-state of a JSON field under the k6 script's `!== null` tests:
missing (`undefined`), explicit `null`, or a number. Only a literal `null`
fails `data.mae_demand !== null`; a missing field passes it. -/
inductive MaeField where
  | absent
  | null
  | value (mae : Rat)
deriving DecidableEq, Repr

/-- The parsed body of a forecast response as inspected by the k6 checks:
`data.forecasts` (possibly absent) and the two MAE fields. -/
structure ForecastBody where
  forecasts : Option (List Unit)
  mae_demand : MaeField
  mae_price : MaeField
deriving DecidableEq, Repr

/-- An HTTP response as the k6 script consumes it: `r.status`,
`r.timings.duration`, and the body; `body = none` means `JSON.parse`
throws, which the check callbacks catch and convert to `false`. -/
structure HttpResponse where
  status : Nat
  timingsDuration : Rat
  body : Option ForecastBody
deriving DecidableEq, Repr

/-- Check predicate `'status is 200'`: `r.status === 200`. -/
def statusIs200 (r : HttpResponse) : Bool := r.status == 200

/-- Check predicate `'response time < 300ms'`:
`r.timings.duration < 300`. -/
def responseTimeUnder300 (r : HttpResponse) : Bool :=
  decide (r.timingsDuration < 300)

/-- Check predicate `'response has forecasts'`:
`data.forecasts && data.forecasts.length > 0`, with a parse failure caught
as `false`. -/
def responseHasForecasts (r : HttpResponse) : Bool :=
  match r.body with
  | none => false
  | some b =>
    match b.forecasts with
    | none => false
    | some l => decide (0 < l.length)

/-- Check predicate `'MAE is reasonable'`:
`data.mae_demand !== null && data.mae_price !== null`, with a parse
failure caught as `false`. -/
def maeIsReasonable (r : HttpResponse) : Bool :=
  match r.body with
  | none => false
  | some b =>
      decide (b.mae_demand ≠ MaeField.null) && decide (b.mae_price ≠ MaeField.null)

/-- Check name literal from the k6 script. -/
def checkNameStatus : String := "status is 200"

/-- Check name literal from the k6 script. -/
def checkNameTime : String := "response time < 300ms"

/-- Check name literal from the k6 script. -/
def checkNameForecasts : String := "response has forecasts"

/-- Check name literal from the k6 script. -/
def checkNameMae : String := "MAE is reasonable"

/-- Check name literal from the k6 script. -/
def checkNameMetrics : String := "metrics status is 200"

/-- Check name literal from the k6 script. -/
def checkNameCost : String := "cost analysis status is 200"

/-- Check name literal from the k6 script. -/
def checkNameHealth : String := "health status is 200"

/-- The mutable aggregates a worker can touch: the `response_time` Trend
samples, the `errors` Rate samples (0 = success, 1 = failure), and k6's
per-check tally of named check outcomes. -/
structure LoadMetricsState where
  responseTimes : List Rat
  errorSamples : List Nat
  checkResults : List (String × Bool)
deriving DecidableEq, Repr

/-- A run starts with empty aggregates. -/
def emptyLoadState : LoadMetricsState :=
  { responseTimes := [], errorSamples := [], checkResults := [] }

/-- k6's `check(response, {...})`: records each named predicate outcome in
the check tally and returns the conjunction of all outcomes. It never
touches the custom `errors` Rate or `response_time` Trend. -/
def k6check (st : LoadMetricsState) (results : List (String × Bool)) :
    LoadMetricsState × Bool :=
  ({ st with checkResults := st.checkResults ++ results },
   results.all (fun c => c.2))

/-- The four named predicates of the primary `check` call, in source
order. -/
def primaryChecks (r : HttpResponse) : List (String × Bool) :=
  [ (checkNameStatus, statusIs200 r),
    (checkNameTime, responseTimeUnder300 r),
    (checkNameForecasts, responseHasForecasts r),
    (checkNameMae, maeIsReasonable r) ]

/-- The `success` boolean of one worker cycle: the return value of the
primary `check`, i.e. the conjunction of all four named predicates. -/
def primarySuccess (r : HttpResponse) : Bool :=
  (primaryChecks r).all (fun c => c.2)

/-- One execution of the k6 `default function`: add the measured wall-clock
`duration` to `response_time`; run the primary four-predicate `check`; add
`1` to `errors` when it failed, `0` when it passed; then, guarded by the
three random coins (`Math.random() < 0.1` / `0.05` / `0.02`), probe the
metrics, cost-analysis and health endpoints, each with a single
status-only `check`. The random item/model/days selection and the
trailing `sleep(0.1)` do not touch the aggregates and are elided. -/
def workerCycle (st : LoadMetricsState) (duration : Rat) (r : HttpResponse)
    (doMetrics : Bool) (metricsRes : HttpResponse)
    (doCost : Bool) (costRes : HttpResponse)
    (doHealth : Bool) (healthRes : HttpResponse) : LoadMetricsState :=
  let st1 := { st with responseTimes := st.responseTimes ++ [duration] }
  let checked := k6check st1 (primaryChecks r)
  let st2 := { checked.1 with
                errorSamples := checked.1.errorSamples ++
                  [if checked.2 then 0 else 1] }
  let st3 := if doMetrics then
      (k6check st2 [(checkNameMetrics, statusIs200 metricsRes)]).1 else st2
  let st4 := if doCost then
      (k6check st3 [(checkNameCost, statusIs200 costRes)]).1 else st3
  if doHealth then
      (k6check st4 [(checkNameHealth, statusIs200 healthRes)]).1 else st4

/-- The summary metrics read by `handleSummary` (each a plain number in
the model; the script's `|| 0` fallbacks only replace a missing or zero
metric by `0` and are identities here). -/
structure SummaryData where
  testRunDurationMs : Rat
  maxVUs : Nat
  httpReqsCount : Nat
  httpReqsRate : Rat
  httpReqFailedRate : Rat
  durationAvg : Rat
  durationP95 : Rat
  durationP99 : Rat
deriving DecidableEq, Repr

/-- The pass/fail content of the text block `handleSummary` renders: the
two per-threshold lines (printed as PASS/FAIL) and the final
PASSED/FAILED verdict line. -/
structure SummaryReport where
  p95ThresholdPass : Bool
  errorRateThresholdPass : Bool
  overallPassed : Bool
deriving DecidableEq, Repr

/-- `handleSummary` (k6 script, end of file): the p95 line prints PASS iff
`p95 < 300`; the error-rate line prints PASS iff `rate * 100 < 10`; the
final line prints PASSED iff `p95 < 300 && rate < 0.1`. -/
def handleSummary (d : SummaryData) : SummaryReport :=
  { p95ThresholdPass := decide (d.durationP95 < 300),
    errorRateThresholdPass := decide (d.httpReqFailedRate * 100 < 10),
    overallPassed :=
      decide (d.durationP95 < 300) &&
      decide (d.httpReqFailedRate < (1 : Rat) / 10) }

end LoadTest

namespace ForecastDashboard

/-- Fixture: an item id from the published item list. -/
def itemOne : String := "ITEM001"

/-- Fixture: the `prophet` model variant. -/
def modelProphet : String := "prophet"

/-- Fixture: the `arima` model variant. -/
def modelArima : String := "arima"

/-- Fixture: a generation timestamp. -/
def sampleTimestamp : String := "2025-06-01T00:00:00"

/-- Fixture: first chronological date. -/
def dateA : String := "2025-01-01"

/-- Fixture: second chronological date. -/
def dateB : String := "2025-01-02"

/-- Fixture: a fully populated forecast point. -/
def pointA : ForecastPoint :=
  { date := some dateA, demand_forecast := some 10, demand_lower := some 8,
    demand_upper := some 12, price_forecast := some 5, price_lower := some 4,
    price_upper := some 6 }

/-- Fixture: a second fully populated forecast point. -/
def pointB : ForecastPoint :=
  { date := some dateB, demand_forecast := some 11, demand_lower := some 9,
    demand_upper := some 13, price_forecast := some 7, price_lower := some 6,
    price_upper := some 8 }

/-- Fixture: the selection key for the prophet model. -/
def keyProphet : SelectionKey :=
  { itemId := itemOne, horizonDays := 90, model := modelProphet }

/-- Fixture: the selection key for the arima model. -/
def keyArima : SelectionKey :=
  { itemId := itemOne, horizonDays := 90, model := modelArima }

/-- Fixture: the forecast body answering the prophet-key request. -/
def prophetResponse : ForecastResponse :=
  { forecasts := some [pointA, pointB], model_type := modelProphet,
    forecast_days := 90, generated_at := sampleTimestamp }

/-- Fixture: the forecast body answering the arima-key request. -/
def arimaResponse : ForecastResponse :=
  { forecasts := some [pointA], model_type := modelArima,
    forecast_days := 90, generated_at := sampleTimestamp }

/-- Fixture: a response body with no `forecasts` field. -/
def responseWithoutForecasts : ForecastResponse :=
  { forecasts := none, model_type := modelProphet, forecast_days := 90,
    generated_at := sampleTimestamp }

/-- Fixture: a response body whose `forecasts` is the empty sequence. -/
def emptyForecastsResponse : ForecastResponse :=
  { forecasts := some [], model_type := modelArima, forecast_days := 30,
    generated_at := sampleTimestamp }

/-- Fixture: two refreshes in rapid succession (prophet key, then arima
key), whose responses resolve out of order — the newer arima response
arrives first, the superseded prophet response last. -/
def staleTrace : List DashEvent :=
  [ DashEvent.reqForecast keyProphet,
    DashEvent.reqForecast keyArima,
    DashEvent.resForecastOk keyArima arimaResponse,
    DashEvent.resForecastOk keyProphet prophetResponse ]

/-- Over any event trace, the committed `forecastData` is the body of the
last successful forecast resolution to arrive (or the starting value when
none arrived): the handler commits unconditionally. -/
theorem runDash_forecastData (tr : List DashEvent) :
    ∀ s : DashboardState,
      (runDash s tr).forecastData =
        (match lastForecastArrival tr with
         | some d => some d
         | none => s.forecastData) := by
  induction tr with
  | nil => intro s; rfl
  | cons e rest ih =>
      intro s
      simp only [runDash, ih, lastForecastArrival]
      cases h : lastForecastArrival rest with
      | some d => simp
      | none => cases e <;> simp [stepDash, eventForecastData]

/-- Over any event trace, the committed `costAnalysis` is the body of the
last successful cost-analysis resolution to arrive. -/
theorem runDash_costAnalysis (tr : List DashEvent) :
    ∀ s : DashboardState,
      (runDash s tr).costAnalysis =
        (match lastCostArrival tr with
         | some d => some d
         | none => s.costAnalysis) := by
  induction tr with
  | nil => intro s; rfl
  | cons e rest ih =>
      intro s
      simp only [runDash, ih, lastCostArrival]
      cases h : lastCostArrival rest with
      | some d => simp
      | none => cases e <;> simp [stepDash, eventCostData]

/-- Over any event trace, the committed `metrics` is the body of the last
successful metrics resolution to arrive. -/
theorem runDash_metrics (tr : List DashEvent) :
    ∀ s : DashboardState,
      (runDash s tr).metrics =
        (match lastMetricsArrival tr with
         | some d => some d
         | none => s.metrics) := by
  induction tr with
  | nil => intro s; rfl
  | cons e rest ih =>
      intro s
      simp only [runDash, ih, lastMetricsArrival]
      cases h : lastMetricsArrival rest with
      | some d => simp
      | none => cases e <;> simp [stepDash, eventMetricsData]

/-- Claim C1 counterexample: in the out-of-order trace `staleTrace` the
last requested key is the arima key, yet the committed `forecastData` is
the body that answered the superseded prophet key — the late stale
response overwrites the newer one, so the committed view state does not
correspond to the last key requested. -/
theorem c1_counterexample :
    lastRequestedKey staleTrace = some keyArima ∧
    keyProphet ≠ keyArima ∧
    arimaResponse ≠ prophetResponse ∧
    (runDash initialDashboardState staleTrace).forecastData
      = some prophetResponse := by
  refine ⟨rfl, by decide, by decide, rfl⟩

/-- Claim C1 (amended): the committed DashboardViewState corresponds to
the last response that arrived, not the last key requested: every
successful response (forecast, cost analysis, metrics) is committed to
view state unconditionally — the handlers never compare the response's key
against the latest requested key, so a late-arriving superseded response
does overwrite the view state (last-arrival-wins). -/
theorem c1_last_arrival_wins (tr : List DashEvent) (s : DashboardState) :
    ((runDash s tr).forecastData =
      (match lastForecastArrival tr with
       | some d => some d
       | none => s.forecastData)) ∧
    ((runDash s tr).costAnalysis =
      (match lastCostArrival tr with
       | some d => some d
       | none => s.costAnalysis)) ∧
    ((runDash s tr).metrics =
      (match lastMetricsArrival tr with
       | some d => some d
       | none => s.metrics)) :=
  ⟨runDash_forecastData tr s, runDash_costAnalysis tr s, runDash_metrics tr s⟩

/-- Claim C2: when the required forecast call of a refresh cycle fails,
the user-visible error slot is set for that cycle, nothing fetched in that
cycle is committed (`forecastData` is exactly what it was before the
cycle), the rendered charts are unchanged from before the cycle — so no
chart derived from the failed cycle is ever rendered — and if nothing had
been committed before the cycle, no chart renders at all. -/
theorem c2_forecast_failure_suppresses (s : DashboardState) (sel : String) :
    (loadForecastData s FetchOutcome.failed).error = some forecastErrorMessage ∧
    (loadForecastData s FetchOutcome.failed).forecastData = s.forecastData ∧
    renderedForecastChart (loadForecastData s FetchOutcome.failed) sel
      = renderedForecastChart s sel ∧
    renderedPriceChart (loadForecastData s FetchOutcome.failed) sel
      = renderedPriceChart s sel ∧
    renderedForecastChart
      (loadForecastData { s with forecastData := none } FetchOutcome.failed) sel
      = none ∧
    renderedPriceChart
      (loadForecastData { s with forecastData := none } FetchOutcome.failed) sel
      = none :=
  ⟨rfl, rfl, rfl, rfl, rfl, rfl⟩

/-- Claim C3: in a cycle where the required forecast call fails while the
two optional calls succeed, the resulting view state has the error slot
set and both optional sections populated; and a failure of an optional
call alone never touches the error slot (in particular, after a cycle
whose forecast call succeeded and whose optional calls failed, the error
slot is null). -/
theorem c3_partial_failure (s : DashboardState) (c : CostAnalysis)
    (m : MetricsResponse) :
    (refresh s FetchOutcome.failed (FetchOutcome.ok c) (FetchOutcome.ok m)).error
      = some forecastErrorMessage ∧
    (refresh s FetchOutcome.failed (FetchOutcome.ok c) (FetchOutcome.ok m)).costAnalysis
      = some c ∧
    (refresh s FetchOutcome.failed (FetchOutcome.ok c) (FetchOutcome.ok m)).metrics
      = some m ∧
    (∀ d : ForecastResponse,
      (refresh s (FetchOutcome.ok d) FetchOutcome.failed FetchOutcome.failed).error
        = none) ∧
    (loadCostAnalysis s FetchOutcome.failed).error = s.error ∧
    (loadMetrics s FetchOutcome.failed).error = s.error :=
  ⟨rfl, rfl, rfl, fun _ => rfl, rfl, rfl⟩

/-- Claim C9: a failed required forecast call leaves every previously
committed result unchanged — `forecastData`, `costAnalysis` and `metrics`
keep their pre-cycle values while the error slot is set — and a failed
optional call is a complete no-op on the state. -/
theorem c9_failure_preserves_results (s : DashboardState) :
    (loadForecastData s FetchOutcome.failed).forecastData = s.forecastData ∧
    (loadForecastData s FetchOutcome.failed).costAnalysis = s.costAnalysis ∧
    (loadForecastData s FetchOutcome.failed).metrics = s.metrics ∧
    (loadForecastData s FetchOutcome.failed).error = some forecastErrorMessage ∧
    loadCostAnalysis s FetchOutcome.failed = s ∧
    loadMetrics s FetchOutcome.failed = s :=
  ⟨rfl, rfl, rfl, rfl, rfl, rfl⟩

/-- Claim C6: the accuracy badge classifier maps `mae ≤ 5` to Excellent,
`5 < mae ≤ 10` to Good and `10 < mae` to Needs Improvement, with both
boundary values in the lower tier. -/
theorem c6_accuracy_badge_tiers (mae : Rat) :
    (getAccuracyBadge mae = Badge.excellent ↔ mae ≤ 5) ∧
    (getAccuracyBadge mae = Badge.good ↔ 5 < mae ∧ mae ≤ 10) ∧
    (getAccuracyBadge mae = Badge.needsImprovement ↔ 10 < mae) ∧
    getAccuracyBadge 5 = Badge.excellent ∧
    getAccuracyBadge 10 = Badge.good := by
  unfold getAccuracyBadge
  refine ⟨?_, ?_, ?_, by norm_num, by norm_num⟩
  all_goals split_ifs with h1 h2 <;> simp_all <;> linarith

/-- Claim C7 counterexample: on a response that lacks the `forecasts`
field, both series builders return `null` (no chart object at all), not an
empty series: the claimed empty-series chart would be a `some` value with
empty traces, but the guard `!forecastData.forecasts` short-circuits to
`null` first. -/
theorem c7_counterexample :
    createForecastChart (some responseWithoutForecasts) itemOne = none ∧
    createPriceChart (some responseWithoutForecasts) itemOne = none ∧
    responseWithoutForecasts.forecasts = none :=
  ⟨rfl, rfl, rfl⟩

/-- Claim C7 (amended): the series builders are total and never fail; on
an empty point sequence they return a chart whose three traces all have
empty `x` and `y` sequences, for both the demand and the price measure;
but when the response is absent or lacks the `forecasts` field they return
`null` (no chart is built) rather than an empty series. -/
theorem c7_graceful_degradation (f : ForecastResponse) (sel : String) :
    createForecastChart none sel = none ∧
    createPriceChart none sel = none ∧
    (f.forecasts = none →
      createForecastChart (some f) sel = none ∧
      createPriceChart (some f) sel = none) ∧
    (f.forecasts = some [] →
      ∃ c p, createForecastChart (some f) sel = some c ∧
        createPriceChart (some f) sel = some p ∧
        c.data.length = 3 ∧ p.data.length = 3 ∧
        (∀ t ∈ c.data, t.x = [] ∧ t.y = []) ∧
        (∀ t ∈ p.data, t.x = [] ∧ t.y = [])) := by
  refine ⟨rfl, rfl, fun h => ?_, fun h => ?_⟩
  · constructor <;> simp [createForecastChart, createPriceChart, h]
  · simp only [createForecastChart, createPriceChart, h]
    refine ⟨_, _, rfl, rfl, rfl, rfl, ?_, ?_⟩ <;>
      · intro t ht
        simp only [List.map_nil, List.mem_cons, List.not_mem_nil, or_false] at ht
        rcases ht with rfl | rfl | rfl <;> exact ⟨rfl, rfl⟩

/-- Claim C7 witness: the amended claim evaluated on a response lacking
the `forecasts` field and on a response with an empty point sequence. -/
theorem c7_witness :
    createForecastChart (some responseWithoutForecasts) itemOne = none ∧
    (∃ c p, createForecastChart (some emptyForecastsResponse) itemOne = some c ∧
      createPriceChart (some emptyForecastsResponse) itemOne = some p ∧
      c.data.length = 3 ∧ p.data.length = 3 ∧
      (∀ t ∈ c.data, t.x = [] ∧ t.y = []) ∧
      (∀ t ∈ p.data, t.x = [] ∧ t.y = [])) :=
  ⟨((c7_graceful_degradation responseWithoutForecasts itemOne).2.2.1 rfl).1,
   (c7_graceful_degradation emptyForecastsResponse itemOne).2.2.2 rfl⟩

/-- Claim C8: whenever the response carries a point sequence `pts`, both
chart builders succeed and each of the three traces of each chart shares
the `x` axis `pts.map date` (the input dates in their original
chronological order), carries as `y` the corresponding field mapped over
`pts` in the same order, and has exactly `pts.length` entries. -/
theorem c8_series_alignment (f : ForecastResponse) (pts : List ForecastPoint)
    (sel : String) (h : f.forecasts = some pts) :
    ∃ c p, createForecastChart (some f) sel = some c ∧
      createPriceChart (some f) sel = some p ∧
      c.data.map (fun t => t.x) =
        [pts.map (fun q => q.date), pts.map (fun q => q.date),
         pts.map (fun q => q.date)] ∧
      p.data.map (fun t => t.x) =
        [pts.map (fun q => q.date), pts.map (fun q => q.date),
         pts.map (fun q => q.date)] ∧
      c.data.map (fun t => t.y) =
        [pts.map (fun q => q.demand_forecast), pts.map (fun q => q.demand_upper),
         pts.map (fun q => q.demand_lower)] ∧
      p.data.map (fun t => t.y) =
        [pts.map (fun q => q.price_forecast), pts.map (fun q => q.price_upper),
         pts.map (fun q => q.price_lower)] ∧
      (∀ t ∈ c.data, t.x.length = pts.length ∧ t.y.length = pts.length) ∧
      (∀ t ∈ p.data, t.x.length = pts.length ∧ t.y.length = pts.length) := by
  simp only [createForecastChart, createPriceChart, h]
  refine ⟨_, _, rfl, rfl, rfl, rfl, rfl, rfl, ?_, ?_⟩ <;>
    · intro t ht
      simp only [List.mem_cons, List.not_mem_nil, or_false] at ht
      rcases ht with rfl | rfl | rfl <;>
        exact ⟨List.length_map _ _, List.length_map _ _⟩

/-- Claim C8 witness: the alignment property evaluated on a concrete
two-point response. -/
theorem c8_witness :
    ∃ c p, createForecastChart (some prophetResponse) itemOne = some c ∧
      createPriceChart (some prophetResponse) itemOne = some p ∧
      c.data.map (fun t => t.x) =
        [[pointA, pointB].map (fun q => q.date),
         [pointA, pointB].map (fun q => q.date),
         [pointA, pointB].map (fun q => q.date)] ∧
      p.data.map (fun t => t.x) =
        [[pointA, pointB].map (fun q => q.date),
         [pointA, pointB].map (fun q => q.date),
         [pointA, pointB].map (fun q => q.date)] ∧
      c.data.map (fun t => t.y) =
        [[pointA, pointB].map (fun q => q.demand_forecast),
         [pointA, pointB].map (fun q => q.demand_upper),
         [pointA, pointB].map (fun q => q.demand_lower)] ∧
      p.data.map (fun t => t.y) =
        [[pointA, pointB].map (fun q => q.price_forecast),
         [pointA, pointB].map (fun q => q.price_upper),
         [pointA, pointB].map (fun q => q.price_lower)] ∧
      (∀ t ∈ c.data, t.x.length = [pointA, pointB].length ∧
        t.y.length = [pointA, pointB].length) ∧
      (∀ t ∈ p.data, t.x.length = [pointA, pointB].length ∧
        t.y.length = [pointA, pointB].length) :=
  c8_series_alignment prophetResponse [pointA, pointB] itemOne rfl

end ForecastDashboard

namespace LoadTest

/-- Fixture: a body that passes every content check — a non-empty forecast
sequence and two non-null MAE fields. -/
def healthyBody : ForecastBody :=
  { forecasts := some [()], mae_demand := MaeField.value 3,
    mae_price := MaeField.value 3 }

/-- Fixture: a 200 response with a healthy body whose measured server-side
duration is 400 ms. -/
def slowResponse : HttpResponse :=
  { status := 200, timingsDuration := 400, body := some healthyBody }

/-- Fixture: an arbitrary response for the optional probe arguments. -/
def probeStub : HttpResponse :=
  { status := 200, timingsDuration := 1, body := none }

/-- Claim C4 counterexample: a cycle whose primary response has HTTP
status 200 and a non-empty parsed forecast sequence is nevertheless
recorded as a failure in the error-rate tally, because its
`timings.duration` of 400 ms fails the `'response time < 300ms'` check
that also feeds the `success` boolean — so status + non-empty forecasts is
not the whole success condition. -/
theorem c4_counterexample :
    slowResponse.status = 200 ∧
    responseHasForecasts slowResponse = true ∧
    maeIsReasonable slowResponse = true ∧
    primarySuccess slowResponse = false ∧
    (workerCycle emptyLoadState 400 slowResponse false probeStub false probeStub
        false probeStub).errorSamples = [1] := by
  refine ⟨rfl, by decide, by decide, by decide, by decide⟩

/-- Claim C4 (amended): in every worker cycle the primary request is
recorded in the error-rate tally as a success (sample 0) iff all four
predicates of the primary `check` hold: HTTP status is 200, AND the
response's `timings.duration` is below 300 ms, AND the parsed body carries
a non-empty forecast sequence, AND neither MAE field of the parsed body is
null; otherwise a failure (sample 1) is recorded. -/
theorem c4_primary_success_condition (st : LoadMetricsState) (duration : Rat)
    (r : HttpResponse) (dm : Bool) (mr : HttpResponse) (dc : Bool)
    (cr : HttpResponse) (dh : Bool) (hr : HttpResponse) :
    (workerCycle st duration r dm mr dc cr dh hr).errorSamples
      = st.errorSamples ++ [if primarySuccess r then 0 else 1] ∧
    (primarySuccess r = true ↔
      (r.status = 200 ∧ r.timingsDuration < 300 ∧
        ∃ b, r.body = some b ∧
          (∃ l, b.forecasts = some l ∧ 0 < l.length) ∧
          b.mae_demand ≠ MaeField.null ∧ b.mae_price ≠ MaeField.null)) := by
  constructor
  · unfold workerCycle k6check primarySuccess
    cases dm <;> cases dc <;> cases dh <;> simp
  · unfold primarySuccess primaryChecks statusIs200 responseTimeUnder300
      responseHasForecasts maeIsReasonable
    rcases r with ⟨rs, rt, rb⟩
    rcases rb with _ | ⟨fc, md, mp⟩
    · simp
    · rcases fc with _ | l <;> simp

/-- Claim C10: every worker cycle appends exactly one sample to the
`response_time` distribution (the measured duration) and exactly one
sample to the `errors` rate (0 on success, 1 on failure), whichever of the
metrics / cost-analysis / health probe branches run; the probe checks only
extend the named-check tally and never touch the two aggregates. -/
theorem c10_one_sample_per_cycle (st : LoadMetricsState) (duration : Rat)
    (r : HttpResponse) (dm : Bool) (mr : HttpResponse) (dc : Bool)
    (cr : HttpResponse) (dh : Bool) (hr : HttpResponse) :
    (workerCycle st duration r dm mr dc cr dh hr).responseTimes
      = st.responseTimes ++ [duration] ∧
    (workerCycle st duration r dm mr dc cr dh hr).errorSamples
      = st.errorSamples ++ [if primarySuccess r then 0 else 1] := by
  unfold workerCycle k6check primarySuccess
  cases dm <;> cases dc <;> cases dh <;> simp

/-- Claim C5: the summary reports one boolean per threshold — the p95 line
passes iff `p95 < 300`, the error-rate line passes iff the failed-request
rate is below 0.1 (the source compares `rate * 100 < 10`) — and the
overall verdict is PASSED iff `p95 < 300` and the failed-request rate is
below 0.1. -/
theorem c5_summary_verdict (d : SummaryData) :
    ((handleSummary d).p95ThresholdPass = true ↔ d.durationP95 < 300) ∧
    ((handleSummary d).errorRateThresholdPass = true ↔
      d.httpReqFailedRate < 1 / 10) ∧
    ((handleSummary d).overallPassed = true ↔
      (d.durationP95 < 300 ∧ d.httpReqFailedRate < 1 / 10)) := by
  unfold handleSummary
  refine ⟨by simp, ?_, by simp⟩
  simp only [decide_eq_true_eq]
  constructor <;> intro h <;> linarith

end LoadTest
